import Mathlib

/-!
Verification of the e-commerce order-intake service (src/index.js).

The service is embedded shallowly: JS numbers become `ℚ`, the in-memory
`Map` of orders becomes an association list in insertion order (matching
JS `Map` iteration semantics), and each Express handler becomes a pure
function from its inputs (request body, path parameter, the outcome of
the one downstream fetch) and the current store to a response and the
new store.  JS truthiness on strings is modelled explicitly: an absent
field is `none`, and `""` is falsy like `undefined`.
-/

namespace Ecommerce

/-- Rounding helper for `Math.round(x * 100) / 100` in the source.
Mathlib's `round` is `⌊x + 1/2⌋`, which agrees with JS `Math.round`
(halves round toward `+∞`). -/
def round2 (x : ℚ) : ℚ := (round (x * 100) : ℤ) / 100

/-- One catalog record from `data/products.json`: `id`, `name`, `price`. -/
structure Product where
  id : String
  name : String
  price : ℚ
deriving Repr, DecidableEq

/-- One entry of the client's `items` array in a create-order body.
`price` is the client-supplied price field, which the handler never
reads (it always uses the catalog price). -/
structure ReqItem where
  productId : String
  quantity : ℚ
  price : Option ℚ
deriving Repr, DecidableEq

/-- The client's `customer` object.  Absent `name`/`email` are modelled
as `""` because the handler only tests their truthiness, and `""` and
`undefined` are both falsy. -/
structure Customer where
  name : String
  email : String
  address : Option String
  phone : Option String
deriving Repr, DecidableEq

/-- The body of a POST `/api/orders/create` request.  `items = none`
models an absent or non-array field (`!items || !Array.isArray(items)`). -/
structure CreateRequest where
  items : Option (List ReqItem)
  customer : Option Customer
deriving Repr, DecidableEq

/-- An element of `orderItems` as built by the create handler. -/
structure OrderItem where
  productId : String
  name : String
  price : ℚ
  quantity : ℚ
  unitPrice : ℚ
  subtotal : ℚ
deriving Repr, DecidableEq

/-- The customer snapshot embedded in a stored order
(`address: customer.address || null`, `phone: customer.phone || null`). -/
structure CustomerSnapshot where
  name : String
  email : String
  address : Option String
  phone : Option String
deriving Repr, DecidableEq

/-- A stored order object. -/
structure Order where
  id : String
  items : List OrderItem
  customer : CustomerSnapshot
  totalAmount : ℚ
  currency : String
  status : String
  createdAt : String
  updatedAt : String
deriving Repr, DecidableEq

/-- The in-memory `orders` Map: an association list in insertion order
(JS `Map` preserves insertion order; `set` on an existing key keeps its
position). -/
abbrev Store := List (String × Order)

/-- Lookup in the orders map (`orders.get(orderId)`). -/
def storeGet (store : Store) (k : String) : Option Order :=
  match store with
  | [] => none
  | e :: rest => if e.1 == k then some e.2 else storeGet rest k

/-- Update in the orders map (`orders.set(orderId, order)`): replace in
place when the key exists, append otherwise. -/
def storeSet (store : Store) (k : String) (o : Order) : Store :=
  match store with
  | [] => [(k, o)]
  | e :: rest => if e.1 == k then (k, o) :: rest else e :: storeSet rest k o

/-- The keys currently present in the orders map. -/
def storeKeys (store : Store) : List String :=
  store.map Prod.fst

/-- The values of the orders map in insertion order
(`Array.from(orders.values())`). -/
def storeValues (store : Store) : List Order :=
  store.map Prod.snd

/-- Catalog lookup `products.find(p => p.id === id)`. -/
def findProduct (products : List Product) (pid : String) : Option Product :=
  products.find? (fun p => p.id == pid)

/-- JS `x || y` on a possibly-absent string: keep `x` when it is present
and non-empty, fall back to `y` otherwise. -/
def jsOr (x : Option String) (y : String) : String :=
  match x with
  | some s => if s == "" then y else s
  | none => y

/-- JS `x || null` on a possibly-absent string field. -/
def jsOrNull (x : Option String) : Option String :=
  match x with
  | some s => if s == "" then none else some s
  | none => none

/-- A JSON response whose `data` is one order (create / get-order). -/
structure OrderResponse where
  status : Nat
  success : Bool
  error : Option String
  message : Option String
  data : Option Order
deriving Repr, DecidableEq

/-- A JSON response whose `data` is one product (get-product). -/
structure ProductResponse where
  status : Nat
  success : Bool
  error : Option String
  data : Option Product
deriving Repr, DecidableEq

/-- A JSON response listing products plus `total` (list-products). -/
structure ProductListResponse where
  status : Nat
  success : Bool
  data : List Product
  total : Nat
deriving Repr, DecidableEq

/-- A JSON response listing orders plus `total` (list-orders). -/
structure OrderListResponse where
  status : Nat
  success : Bool
  data : List Order
  total : Nat
deriving Repr, DecidableEq

/-- The health-check payload. -/
structure HealthResponse where
  status : String
  service : String
  timestamp : String
deriving Repr, DecidableEq

/-- A 400 validation response from the create handler. -/
def err400 (msg : String) : OrderResponse :=
  { status := 400, success := false, error := some msg, message := none, data := none }

/-- The per-item loop of the create handler: resolve each `productId`
against the catalog, reject an unknown product or a quantity `≤ 0`
naming the offending id, price from the catalog record, and accumulate
`subtotal = Math.round(unitPrice * quantity * 100) / 100` into the
running total.  Returns the built `orderItems` with the (unrounded)
total, or the first error message. -/
def buildItems (products : List Product) (items : List ReqItem) :
    Except String (List OrderItem × ℚ) :=
  match items with
  | [] => Except.ok ([], 0)
  | item :: rest =>
    match findProduct products item.productId with
    | none => Except.error ("Product not found: " ++ item.productId)
    | some product =>
      if item.quantity ≤ 0 then
        Except.error ("Invalid quantity for product: " ++ item.productId)
      else
        let unitPrice := product.price
        let subtotal := round2 (unitPrice * item.quantity)
        let oi : OrderItem :=
          { productId := product.id, name := product.name, price := unitPrice,
            quantity := item.quantity, unitPrice := unitPrice, subtotal := subtotal }
        match buildItems products rest with
        | Except.error e => Except.error e
        | Except.ok (ois, total) => Except.ok (oi :: ois, subtotal + total)

/-- The order object literal built by the create handler on success:
fresh id, the computed order items, the customer snapshot, the rounded
total, fixed currency `"USD"`, status `"pending"`, and the current
timestamp for both `createdAt` and `updatedAt`. -/
def builtOrder (newId nowStr : String) (customer : Customer)
    (orderItems : List OrderItem) (totalAmount : ℚ) : Order :=
  { id := newId
    items := orderItems
    customer :=
      { name := customer.name, email := customer.email,
        address := jsOrNull customer.address,
        phone := jsOrNull customer.phone }
    totalAmount := round2 totalAmount
    currency := "USD"
    status := "pending"
    createdAt := nowStr
    updatedAt := nowStr }

/-- POST `/api/orders/create`.  `newId` stands for the fresh `uuidv4()`
and `nowStr` for `new Date().toISOString()`.  Validation short-circuits:
items present and non-empty, then customer with truthy email and name,
then the per-item loop; on success the order is stored and returned
with status 201. -/
def createOrderHandler (products : List Product) (body : CreateRequest)
    (newId nowStr : String) (store : Store) : OrderResponse × Store :=
  match body.items with
  | none => (err400 "Items array is required and cannot be empty", store)
  | some items =>
    if items.isEmpty then
      (err400 "Items array is required and cannot be empty", store)
    else
      match body.customer with
      | none => (err400 "Customer information (name, email) is required", store)
      | some customer =>
        if customer.email == "" || customer.name == "" then
          (err400 "Customer information (name, email) is required", store)
        else
          match buildItems products items with
          | Except.error e => (err400 e, store)
          | Except.ok (orderItems, totalAmount) =>
            let order := builtOrder newId nowStr customer orderItems totalAmount
            ({ status := 201, success := true, error := none,
               message := some "Order created successfully", data := some order },
             storeSet store newId order)

/-- GET `/api/products/:id`. -/
def getProductHandler (products : List Product) (pid : String) : ProductResponse :=
  match findProduct products pid with
  | none => { status := 404, success := false, error := some "Product not found", data := none }
  | some p => { status := 200, success := true, error := none, data := some p }

/-- GET `/api/products`. -/
def listProductsHandler (products : List Product) : ProductListResponse :=
  { status := 200, success := true, data := products, total := products.length }

/-- GET `/health`. -/
def healthHandler (nowStr : String) : HealthResponse :=
  { status := "healthy", service := "ecommerce", timestamp := nowStr }

/-- The `data` object of a downstream OMS response body.  A field is
`none` when absent; `some ""` is present but falsy, treated the same by
`||`. -/
structure OmsData where
  status : Option String
  updatedAt : Option String
deriving Repr, DecidableEq

/-- A downstream OMS HTTP response: `ok` is `response.ok`, `data` is the
`data` field of the JSON body (`none` when absent or falsy). -/
structure OmsResponse where
  ok : Bool
  data : Option OmsData
deriving Repr, DecidableEq

/-- The outcome of the single `fetch` in the get-order handler: `none`
when the fetch throws or times out (the `catch` branch). -/
abbrev OmsOutcome := Option OmsResponse

/-- GET `/api/orders/:id`.  Unknown id → 404.  Otherwise a best-effort
OMS call: only when the fetch succeeded, `response.ok`, and the body has
a truthy `data` object are `status`/`updatedAt` overwritten (each only
by a truthy downstream value, via `||`) and the order re-stored.  Every
other outcome returns the local order unchanged with status 200. -/
def getOrderHandler (store : Store) (orderId : String) (oms : OmsOutcome) :
    OrderResponse × Store :=
  match storeGet store orderId with
  | none =>
    ({ status := 404, success := false, error := some "Order not found",
       message := none, data := none }, store)
  | some order =>
    match oms with
    | some resp =>
      if resp.ok then
        match resp.data with
        | some d =>
          let order' : Order :=
            { order with
              status := jsOr d.status order.status
              updatedAt := jsOr d.updatedAt order.updatedAt }
          ({ status := 200, success := true, error := none,
             message := none, data := some order' },
           storeSet store orderId order')
        | none =>
          ({ status := 200, success := true, error := none,
             message := none, data := some order }, store)
      else
        ({ status := 200, success := true, error := none,
           message := none, data := some order }, store)
    | none =>
      ({ status := 200, success := true, error := none,
         message := none, data := some order }, store)

/-- GET `/api/orders`: every stored order in insertion order plus the
count.  No OMS call is made (the handler has no downstream input). -/
def listOrdersHandler (store : Store) : OrderListResponse :=
  let allOrders := storeValues store
  { status := 200, success := true, data := allOrders, total := allOrders.length }

/-- One incoming request, abstracting over the non-deterministic inputs
(fresh id, clock, downstream outcome). -/
inductive Op where
  | create (body : CreateRequest) (newId nowStr : String)
  | getOrder (orderId : String) (oms : OmsOutcome)
  | listOrders
  | listProducts
  | getProduct (pid : String)
  | health (nowStr : String)
deriving Repr

/-- The effect of one request on the orders store. -/
def step (products : List Product) (store : Store) : Op → Store
  | Op.create body newId nowStr => (createOrderHandler products body newId nowStr store).2
  | Op.getOrder orderId oms => (getOrderHandler store orderId oms).2
  | Op.listOrders => store
  | Op.listProducts => store
  | Op.getProduct _ => store
  | Op.health _ => store

/-- The store after a sequence of requests. -/
def run (products : List Product) (store : Store) : List Op → Store
  | [] => store
  | op :: ops => run products (step products store op) ops

/-- An item of the request that is dropped by neither check of the
per-item loop: its product resolves in the catalog and its quantity is
positive. -/
def itemPasses (products : List Product) (it : ReqItem) : Prop :=
  (∃ p, findProduct products it.productId = some p) ∧ 0 < it.quantity

/-- A request item with any client-supplied price removed. -/
def stripClientPrice (it : ReqItem) : ReqItem :=
  { it with price := none }

/-- A create-order body with every client-supplied item price removed. -/
def stripPrices (b : CreateRequest) : CreateRequest :=
  { b with items := b.items.map (fun its => its.map stripClientPrice) }

/-! ### Lemmas about the store -/

theorem storeGet_storeSet_self (store : Store) (k : String) (o : Order) :
    storeGet (storeSet store k o) k = some o := by
  induction store with
  | nil => simp [storeGet, storeSet]
  | cons e rest ih =>
    by_cases h : e.1 == k
    · simp [storeSet, h, storeGet]
    · simp [storeSet, h, storeGet, ih]

theorem storeKeys_storeSet_mono (store : Store) (k k' : String) (o : Order)
    (h : k' ∈ storeKeys store) : k' ∈ storeKeys (storeSet store k o) := by
  induction store with
  | nil => simp [storeKeys] at h
  | cons e rest ih =>
    by_cases he : e.1 == k
    · have : e.1 = k := by simpa using he
      simp [storeKeys, storeSet, he] at h ⊢
      rcases h with h | h
      · exact Or.inl (this ▸ h)
      · exact Or.inr h
    · simp [storeKeys, storeSet, he] at h ⊢
      rcases h with h | h
      · exact Or.inl h
      · exact Or.inr (by simpa [storeKeys] using ih (by simpa [storeKeys] using h))

theorem storeSet_fresh (store : Store) (k : String) (o : Order)
    (h : ∀ e ∈ store, e.1 ≠ k) : storeSet store k o = store ++ [(k, o)] := by
  induction store with
  | nil => simp [storeSet]
  | cons e rest ih =>
    have he : (e.1 == k) = false := by
      simpa using h e (by simp)
    simp [storeSet, he]
    exact ih (fun x hx => h x (by simp [hx]))

/-! ### Lemmas about the per-item loop -/

theorem buildItems_sum (products : List Product) (items : List ReqItem)
    (ois : List OrderItem) (total : ℚ)
    (h : buildItems products items = Except.ok (ois, total)) :
    total = (ois.map OrderItem.subtotal).sum := by
  induction items generalizing ois total with
  | nil =>
    simp [buildItems] at h
    obtain ⟨h1, h2⟩ := h
    subst h1
    simp [← h2]
  | cons item rest ih =>
    rw [buildItems] at h
    split at h
    · simp at h
    · split at h
      · simp at h
      · split at h
        · simp at h
        · rename_i ois0 total0 heq
          simp at h
          obtain ⟨h1, h2⟩ := h
          subst h1
          subst h2
          simp [ih ois0 total0 heq]

theorem buildItems_mem_spec (products : List Product) (items : List ReqItem)
    (ois : List OrderItem) (total : ℚ)
    (h : buildItems products items = Except.ok (ois, total)) :
    ∀ oi ∈ ois, ∃ p, findProduct products oi.productId = some p ∧
      oi.name = p.name ∧ oi.price = p.price ∧ oi.unitPrice = p.price ∧
      0 < oi.quantity ∧ oi.subtotal = round2 (p.price * oi.quantity) := by
  induction items generalizing ois total with
  | nil =>
    simp [buildItems] at h
    obtain ⟨h1, _⟩ := h
    subst h1
    simp
  | cons item rest ih =>
    rw [buildItems] at h
    split at h
    · simp at h
    · rename_i product hf
      split at h
      · simp at h
      · rename_i hq
        split at h
        · simp at h
        · rename_i ois0 total0 heq
          simp at h
          obtain ⟨h1, _⟩ := h
          subst h1
          intro oi hoi
          rcases List.mem_cons.mp hoi with hhd | htl
          · subst hhd
            refine ⟨product, ?_, rfl, rfl, rfl, by simpa using not_le.mp hq, rfl⟩
            have hpid : product.id = item.productId := by
              have := List.find?_some hf
              simpa using this
            simpa [hpid] using hf
          · exact ih ois0 total0 heq oi htl

theorem buildItems_maps (products : List Product) (items : List ReqItem)
    (ois : List OrderItem) (total : ℚ)
    (h : buildItems products items = Except.ok (ois, total)) :
    ois.map OrderItem.productId = items.map ReqItem.productId ∧
    ois.map OrderItem.quantity = items.map ReqItem.quantity := by
  induction items generalizing ois total with
  | nil =>
    simp [buildItems] at h
    obtain ⟨h1, _⟩ := h
    subst h1
    simp
  | cons item rest ih =>
    rw [buildItems] at h
    split at h
    · simp at h
    · rename_i product hf
      split at h
      · simp at h
      · split at h
        · simp at h
        · rename_i ois0 total0 heq
          simp at h
          obtain ⟨h1, _⟩ := h
          subst h1
          have hpid : product.id = item.productId := by
            have := List.find?_some hf
            simpa using this
          obtain ⟨hm1, hm2⟩ := ih ois0 total0 heq
          simp [hpid, hm1, hm2]

theorem buildItems_ignores_clientPrice (products : List Product) (items : List ReqItem) :
    buildItems products (items.map stripClientPrice) = buildItems products items := by
  induction items with
  | nil => rfl
  | cons item rest ih =>
    rw [List.map_cons, buildItems, buildItems, ih]
    rfl

theorem buildItems_append_error (products : List Product) (pre rest0 : List ReqItem)
    (e : String) (hpre : ∀ x ∈ pre, itemPasses products x)
    (h : buildItems products rest0 = Except.error e) :
    buildItems products (pre ++ rest0) = Except.error e := by
  induction pre with
  | nil => simpa using h
  | cons item pre' ih =>
    obtain ⟨⟨p, hp⟩, hq⟩ := hpre item (by simp)
    have hrec := ih (fun x hx => hpre x (by simp [hx]))
    simp [buildItems, hp, hrec, not_le.mpr hq]

theorem buildItems_ok_of_all_pass (products : List Product) (items : List ReqItem)
    (hall : ∀ x ∈ items, itemPasses products x) :
    ∃ ois total, buildItems products items = Except.ok (ois, total) := by
  induction items with
  | nil => exact ⟨[], 0, rfl⟩
  | cons item rest ih =>
    obtain ⟨⟨p, hp⟩, hq⟩ := hall item (by simp)
    obtain ⟨ois0, total0, hrec⟩ := ih (fun x hx => hall x (by simp [hx]))
    exact ⟨{ productId := p.id, name := p.name, price := p.price, quantity := item.quantity,
             unitPrice := p.price, subtotal := round2 (p.price * item.quantity) } :: ois0,
           round2 (p.price * item.quantity) + total0,
           by simp [buildItems, hp, hrec, not_le.mpr hq]⟩

/-! ### Inversion of a successful create -/

theorem createOrder_ok_inv (products : List Product) (body : CreateRequest)
    (newId nowStr : String) (store : Store)
    (hs : (createOrderHandler products body newId nowStr store).1.status = 201) :
    ∃ items customer orderItems totalAmount,
      body.items = some items ∧ items ≠ [] ∧
      body.customer = some customer ∧ customer.email ≠ "" ∧ customer.name ≠ "" ∧
      buildItems products items = Except.ok (orderItems, totalAmount) ∧
      createOrderHandler products body newId nowStr store =
        ({ status := 201, success := true, error := none,
           message := some "Order created successfully",
           data := some (builtOrder newId nowStr customer orderItems totalAmount) },
         storeSet store newId (builtOrder newId nowStr customer orderItems totalAmount)) := by
  rcases hb : body.items with _ | items
  · simp [createOrderHandler, hb, err400] at hs
  by_cases hne : items.isEmpty
  · simp [createOrderHandler, hb, hne, err400] at hs
  rcases hc : body.customer with _ | customer
  · simp [createOrderHandler, hb, hne, hc, err400] at hs
  by_cases hcust : (customer.email == "" || customer.name == "") = true
  · simp [createOrderHandler, hb, hne, hc, hcust, err400] at hs
  rcases hbuild : buildItems products items with e | pr
  · simp [createOrderHandler, hb, hne, hc, hcust, hbuild, err400] at hs
  obtain ⟨orderItems, totalAmount⟩ := pr
  have hcust' : ¬(customer.email = "" ∨ customer.name = "") := by
    simpa using hcust
  push_neg at hcust'
  refine ⟨items, customer, orderItems, totalAmount, rfl,
    by simpa [List.isEmpty_iff] using hne, rfl, hcust'.1, hcust'.2, hbuild, ?_⟩
  simp [createOrderHandler, hb, hne, hc, hcust, hbuild]

theorem createOrder_stripPrices (products : List Product) (body : CreateRequest)
    (newId nowStr : String) (store : Store) :
    createOrderHandler products (stripPrices body) newId nowStr store =
    createOrderHandler products body newId nowStr store := by
  obtain ⟨bitems, bcust⟩ := body
  rcases bitems with _ | items
  · rfl
  have hie : (items.map stripClientPrice).isEmpty = items.isEmpty := by
    cases items <;> simp [stripClientPrice]
  by_cases hne : items.isEmpty
  · simp [createOrderHandler, stripPrices, hie, hne]
  rcases bcust with _ | customer
  · simp [createOrderHandler, stripPrices, hie, hne]
  by_cases hcust : (customer.email == "" || customer.name == "") = true
  · simp [createOrderHandler, stripPrices, hie, hne, hcust]
  · simp [createOrderHandler, stripPrices, hie, hne, hcust, buildItems_ignores_clientPrice]

/-! ### Concrete fixtures used to witness the theorems -/

/-- A two-product catalog like the bundled `products.json` examples. -/
def demoCatalog : List Product :=
  [{ id := "prod-001", name := "Widget", price := 10 },
   { id := "prod-003", name := "Gadget", price := 5 }]

/-- A well-formed customer object. -/
def demoCustomer : Customer :=
  { name := "John Doe", email := "john@example.com", address := none, phone := none }

/-- A valid create-order body; the first item carries a (bogus)
client-supplied price that the server must ignore. -/
def demoRequest : CreateRequest :=
  { items := some [{ productId := "prod-001", quantity := 2, price := some 1 },
                   { productId := "prod-003", quantity := 1, price := none }],
    customer := some demoCustomer }

/-- The order the create handler builds for `demoRequest`. -/
def demoOrder : Order :=
  { id := "ord-1"
    items := [{ productId := "prod-001", name := "Widget", price := 10,
                quantity := 2, unitPrice := 10, subtotal := 20 },
              { productId := "prod-003", name := "Gadget", price := 5,
                quantity := 1, unitPrice := 5, subtotal := 5 }]
    customer := { name := "John Doe", email := "john@example.com",
                  address := none, phone := none }
    totalAmount := 25
    currency := "USD"
    status := "pending"
    createdAt := "t0"
    updatedAt := "t0" }

/-! ### The claims -/

/-- C1: for every order-creation request that passes validation, each
stored order item's unit price comes from the server catalog record for
its productId (any client-supplied price is ignored), its subtotal is
the unit price times the quantity rounded to 2 decimals, and the
order's totalAmount is the sum of the subtotals rounded to 2 decimals. -/
theorem C1_create_pricing (products : List Product) (body : CreateRequest)
    (newId nowStr : String) (store : Store) (o : Order)
    (hs : (createOrderHandler products body newId nowStr store).1.status = 201)
    (hd : (createOrderHandler products body newId nowStr store).1.data = some o) :
    (∀ oi ∈ o.items, ∃ p, findProduct products oi.productId = some p ∧
        oi.unitPrice = p.price ∧ oi.price = p.price ∧
        oi.subtotal = round2 (oi.unitPrice * oi.quantity)) ∧
    o.totalAmount = round2 ((o.items.map OrderItem.subtotal).sum) ∧
    (createOrderHandler products body newId nowStr store).2 = storeSet store newId o ∧
    createOrderHandler products (stripPrices body) newId nowStr store =
      createOrderHandler products body newId nowStr store := by
  obtain ⟨items, customer, orderItems, totalAmount, hb, hne, hc, he, hn, hbuild, heq⟩ :=
    createOrder_ok_inv products body newId nowStr store hs
  rw [heq] at hd
  simp at hd
  subst hd
  refine ⟨?_, ?_, ?_, createOrder_stripPrices products body newId nowStr store⟩
  · intro oi hoi
    simp [builtOrder] at hoi
    obtain ⟨p, hp, _, hp2, hp3, _, hp5⟩ :=
      buildItems_mem_spec products items orderItems totalAmount hbuild oi hoi
    exact ⟨p, hp, hp3, hp2, by rw [hp5, hp3]⟩
  · have hsum := buildItems_sum products items orderItems totalAmount hbuild
    simp [builtOrder, ← hsum]
  · rw [heq]

/-- Concrete instantiation of C1: the demo request yields status 201,
the demo order, subtotals 20 and 5, and total 25. -/
theorem C1_create_pricing_witness :
    (createOrderHandler demoCatalog demoRequest "ord-1" "t0" []).1.status = 201 ∧
    (createOrderHandler demoCatalog demoRequest "ord-1" "t0" []).1.data = some demoOrder ∧
    ((∀ oi ∈ demoOrder.items, ∃ p, findProduct demoCatalog oi.productId = some p ∧
        oi.unitPrice = p.price ∧ oi.price = p.price ∧
        oi.subtotal = round2 (oi.unitPrice * oi.quantity)) ∧
      demoOrder.totalAmount = round2 ((demoOrder.items.map OrderItem.subtotal).sum) ∧
      (createOrderHandler demoCatalog demoRequest "ord-1" "t0" []).2 =
        storeSet [] "ord-1" demoOrder ∧
      createOrderHandler demoCatalog (stripPrices demoRequest) "ord-1" "t0" [] =
        createOrderHandler demoCatalog demoRequest "ord-1" "t0" []) := by
  have hf1 : findProduct demoCatalog "prod-001" = some ⟨"prod-001", "Widget", 10⟩ := by
    decide
  have hf3 : findProduct demoCatalog "prod-003" = some ⟨"prod-003", "Gadget", 5⟩ := by
    decide
  have hs : (createOrderHandler demoCatalog demoRequest "ord-1" "t0" []).1.status = 201 := by
    norm_num +decide [createOrderHandler, buildItems, hf1, hf3, demoRequest,
      demoCustomer, round2, round_eq, err400, storeSet, jsOrNull, builtOrder]
  have hd : (createOrderHandler demoCatalog demoRequest "ord-1" "t0" []).1.data
      = some demoOrder := by
    norm_num +decide [createOrderHandler, buildItems, hf1, hf3, demoRequest,
      demoCustomer, demoOrder, round2, round_eq, err400, storeSet, jsOrNull, builtOrder]
  exact ⟨hs, hd, C1_create_pricing demoCatalog demoRequest "ord-1" "t0" [] demoOrder hs hd⟩

/-- C2: every create request that fails validation (items absent or
empty, customer missing or lacking name or email, an item's productId
not in the catalog, or an item's quantity non-positive) gets a 400
response and leaves the store unchanged; when the failure is an unknown
productId (with the earlier checks passing), the error names that id. -/
theorem C2_create_validation_failure (products : List Product) (body : CreateRequest)
    (newId nowStr : String) (store : Store)
    (hfail :
      body.items = none ∨
      body.items = some [] ∨
      body.customer = none ∨
      (∃ c, body.customer = some c ∧ (c.email = "" ∨ c.name = "")) ∨
      (∃ items pre bad rest, body.items = some items ∧ items = pre ++ bad :: rest ∧
        (∀ x ∈ pre, itemPasses products x) ∧
        findProduct products bad.productId = none) ∨
      (∃ items pre bad rest p, body.items = some items ∧ items = pre ++ bad :: rest ∧
        (∀ x ∈ pre, itemPasses products x) ∧
        findProduct products bad.productId = some p ∧ bad.quantity ≤ 0)) :
    (createOrderHandler products body newId nowStr store).1.status = 400 ∧
    (createOrderHandler products body newId nowStr store).2 = store ∧
    (∀ items c pre bad rest, body.items = some items → body.customer = some c →
      c.email ≠ "" → c.name ≠ "" →
      items = pre ++ bad :: rest → (∀ x ∈ pre, itemPasses products x) →
      findProduct products bad.productId = none →
      (createOrderHandler products body newId nowStr store).1.error =
        some ("Product not found: " ++ bad.productId)) := by
  have hmsg : ∀ items c pre bad rest, body.items = some items → body.customer = some c →
      c.email ≠ "" → c.name ≠ "" →
      items = pre ++ bad :: rest → (∀ x ∈ pre, itemPasses products x) →
      findProduct products bad.productId = none →
      (createOrderHandler products body newId nowStr store).1.error =
        some ("Product not found: " ++ bad.productId) := by
    intro items c pre bad rest hb hc he hn hitems hpre hf
    subst hitems
    have hbuild : buildItems products (pre ++ bad :: rest) =
        Except.error ("Product not found: " ++ bad.productId) :=
      buildItems_append_error products pre _ _ hpre (by simp [buildItems, hf])
    have hcu : (c.email == "" || c.name == "") = false := by simp [he, hn]
    simp [createOrderHandler, hb, hc, hcu, hbuild, err400]
  refine ⟨?_, ?_, hmsg⟩ <;>
  · rcases hfail with hb | hb | hc | ⟨c, hc, hcu⟩ | hbad | hbad
    · simp [createOrderHandler, hb, err400]
    · rcases hc : body.customer with _ | c
      · simp [createOrderHandler, hb, hc, err400]
      · simp [createOrderHandler, hb, hc, err400]
    · rcases hb : body.items with _ | items
      · simp [createOrderHandler, hb, err400]
      · by_cases hne : items.isEmpty
        · simp [createOrderHandler, hb, hne, err400]
        · simp [createOrderHandler, hb, hne, hc, err400]
    · rcases hb : body.items with _ | items
      · simp [createOrderHandler, hb, err400]
      · by_cases hne : items.isEmpty
        · simp [createOrderHandler, hb, hne, err400]
        · have hcu' : (c.email == "" || c.name == "") = true := by
            rcases hcu with h | h <;> simp [h]
          simp [createOrderHandler, hb, hne, hc, hcu', err400]
    · obtain ⟨items, pre, bad, rest, hb, hitems, hpre, hf⟩ := hbad
      subst hitems
      have hbuild : buildItems products (pre ++ bad :: rest) =
          Except.error ("Product not found: " ++ bad.productId) :=
        buildItems_append_error products pre _ _ hpre (by simp [buildItems, hf])
      have hne : (pre ++ bad :: rest).isEmpty = false := by simp
      rcases hc : body.customer with _ | c
      · simp [createOrderHandler, hb, hne, hc, err400]
      · by_cases hcu : (c.email == "" || c.name == "") = true
        · simp [createOrderHandler, hb, hne, hc, hcu, err400]
        · simp [createOrderHandler, hb, hne, hc, hcu, hbuild, err400]
    · obtain ⟨items, pre, bad, rest, p, hb, hitems, hpre, hf, hq⟩ := hbad
      subst hitems
      have hbuild : buildItems products (pre ++ bad :: rest) =
          Except.error ("Invalid quantity for product: " ++ bad.productId) :=
        buildItems_append_error products pre _ _ hpre (by simp [buildItems, hf, hq])
      have hne : (pre ++ bad :: rest).isEmpty = false := by simp
      rcases hc : body.customer with _ | c
      · simp [createOrderHandler, hb, hne, hc, err400]
      · by_cases hcu : (c.email == "" || c.name == "") = true
        · simp [createOrderHandler, hb, hne, hc, hcu, err400]
        · simp [createOrderHandler, hb, hne, hc, hcu, hbuild, err400]

/-- Concrete instantiation of C2: a request for the unknown id
`prod-999` yields 400, stores nothing, and the error names `prod-999`. -/
theorem C2_create_validation_failure_witness :
    (createOrderHandler demoCatalog
        { items := some [{ productId := "prod-999", quantity := 1, price := none }],
          customer := some demoCustomer } "ord-1" "t0" []).1.status = 400 ∧
    (createOrderHandler demoCatalog
        { items := some [{ productId := "prod-999", quantity := 1, price := none }],
          customer := some demoCustomer } "ord-1" "t0" []).2 = [] ∧
    (createOrderHandler demoCatalog
        { items := some [{ productId := "prod-999", quantity := 1, price := none }],
          customer := some demoCustomer } "ord-1" "t0" []).1.error =
      some ("Product not found: " ++ "prod-999") := by
  have hf : findProduct demoCatalog "prod-999" = none := by decide
  have h := C2_create_validation_failure demoCatalog
    { items := some [{ productId := "prod-999", quantity := 1, price := none }],
      customer := some demoCustomer } "ord-1" "t0" []
    (Or.inr (Or.inr (Or.inr (Or.inr (Or.inl
      ⟨[{ productId := "prod-999", quantity := 1, price := none }],
        [], { productId := "prod-999", quantity := 1, price := none }, [],
        rfl, rfl, by simp, hf⟩)))))
  exact ⟨h.1, h.2.1,
    h.2.2 [{ productId := "prod-999", quantity := 1, price := none }] demoCustomer
      [] { productId := "prod-999", quantity := 1, price := none } [] rfl rfl
      (by decide) (by decide) rfl (by simp) hf⟩

/-- C3 counterexample: the create handler only rejects `quantity <= 0`,
so a request whose sole item has the non-integer quantity 3/2 passes
validation: the handler answers 201 and stores the order with quantity
3/2, although 3/2 is not a positive integer. -/
theorem C3_counterexample :
    (createOrderHandler demoCatalog
        { items := some [{ productId := "prod-001", quantity := 3/2, price := none }],
          customer := some demoCustomer } "ord-1" "t0" []).1.status = 201 ∧
    (createOrderHandler demoCatalog
        { items := some [{ productId := "prod-001", quantity := 3/2, price := none }],
          customer := some demoCustomer } "ord-1" "t0" []).2 =
      [("ord-1",
        { id := "ord-1"
          items := [{ productId := "prod-001", name := "Widget", price := 10,
                      quantity := 3/2, unitPrice := 10, subtotal := 15 }]
          customer := { name := "John Doe", email := "john@example.com",
                        address := none, phone := none }
          totalAmount := 15
          currency := "USD"
          status := "pending"
          createdAt := "t0"
          updatedAt := "t0" })] ∧
    ¬ ∃ n : ℤ, ((3:ℚ)/2) = (n:ℚ) := by
  have hf1 : findProduct demoCatalog "prod-001" = some ⟨"prod-001", "Widget", 10⟩ := by
    decide
  refine ⟨?_, ?_, ?_⟩
  · norm_num +decide [createOrderHandler, buildItems, hf1, demoCustomer,
      round2, round_eq, err400, storeSet, jsOrNull, builtOrder]
  · norm_num +decide [createOrderHandler, buildItems, hf1, demoCustomer,
      round2, round_eq, err400, storeSet, jsOrNull, builtOrder]
  · rintro ⟨n, hn⟩
    have h2 : (2:ℚ) * n = 3 := by rw [← hn]; norm_num
    have h3 : (2:ℤ) * n = 3 := by exact_mod_cast h2
    omega

/-- C3 amended: for a request passing the items/customer checks, an
item with a resolvable productId and `quantity ≤ 0` (all earlier items
passing) is rejected with 400, an error naming that productId, and no
stored order; positivity alone is what the code enforces — when every
item resolves and has positive (not necessarily integer) quantity, the
request is accepted with 201. -/
theorem C3_quantity_check (products : List Product) (body : CreateRequest)
    (newId nowStr : String) (store : Store) (items : List ReqItem) (c : Customer)
    (hb : body.items = some items) (hc : body.customer = some c)
    (he : c.email ≠ "") (hn : c.name ≠ "") (hnil : items ≠ []) :
    (∀ pre bad rest p, items = pre ++ bad :: rest →
      (∀ x ∈ pre, itemPasses products x) →
      findProduct products bad.productId = some p → bad.quantity ≤ 0 →
      (createOrderHandler products body newId nowStr store).1.status = 400 ∧
      (createOrderHandler products body newId nowStr store).1.error =
        some ("Invalid quantity for product: " ++ bad.productId) ∧
      (createOrderHandler products body newId nowStr store).2 = store) ∧
    ((∀ x ∈ items, itemPasses products x) →
      (createOrderHandler products body newId nowStr store).1.status = 201) := by
  have hcu : (c.email == "" || c.name == "") = false := by simp [he, hn]
  constructor
  · intro pre bad rest p hitems hpre hf hq
    subst hitems
    have hbuild : buildItems products (pre ++ bad :: rest) =
        Except.error ("Invalid quantity for product: " ++ bad.productId) :=
      buildItems_append_error products pre _ _ hpre (by simp [buildItems, hf, hq])
    have hne : (pre ++ bad :: rest).isEmpty = false := by simp
    refine ⟨?_, ?_, ?_⟩ <;>
      simp [createOrderHandler, hb, hne, hc, hcu, hbuild, err400]
  · intro hall
    obtain ⟨ois, total, hbuild⟩ := buildItems_ok_of_all_pass products items hall
    have hne : items.isEmpty = false := by
      cases items with
      | nil => exact absurd rfl hnil
      | cons a l => simp
    simp [createOrderHandler, hb, hne, hc, hcu, hbuild]

/-- Concrete instantiation of the amended C3: a zero quantity for
`prod-001` is rejected naming `prod-001`, and the same request with the
positive non-integer quantity 3/2 is accepted. -/
theorem C3_quantity_check_witness :
    ((createOrderHandler demoCatalog
        { items := some [{ productId := "prod-001", quantity := 0, price := none }],
          customer := some demoCustomer } "ord-1" "t0" []).1.status = 400 ∧
      (createOrderHandler demoCatalog
        { items := some [{ productId := "prod-001", quantity := 0, price := none }],
          customer := some demoCustomer } "ord-1" "t0" []).1.error =
        some ("Invalid quantity for product: " ++ "prod-001") ∧
      (createOrderHandler demoCatalog
        { items := some [{ productId := "prod-001", quantity := 0, price := none }],
          customer := some demoCustomer } "ord-1" "t0" []).2 = []) ∧
    (createOrderHandler demoCatalog
        { items := some [{ productId := "prod-001", quantity := 3/2, price := none }],
          customer := some demoCustomer } "ord-1" "t0" []).1.status = 201 := by
  have hf1 : findProduct demoCatalog "prod-001" = some ⟨"prod-001", "Widget", 10⟩ := by
    decide
  constructor
  · exact (C3_quantity_check demoCatalog
      { items := some [{ productId := "prod-001", quantity := 0, price := none }],
        customer := some demoCustomer } "ord-1" "t0" []
      [{ productId := "prod-001", quantity := 0, price := none }] demoCustomer
      rfl rfl (by decide) (by decide) (by simp)).1
      [] { productId := "prod-001", quantity := 0, price := none } []
      ⟨"prod-001", "Widget", 10⟩ rfl (by simp) hf1 le_rfl
  · exact (C3_quantity_check demoCatalog
      { items := some [{ productId := "prod-001", quantity := 3/2, price := none }],
        customer := some demoCustomer } "ord-1" "t0" []
      [{ productId := "prod-001", quantity := 3/2, price := none }] demoCustomer
      rfl rfl (by decide) (by decide) (by simp)).2
      (by
        intro x hx
        simp at hx
        subst hx
        exact ⟨⟨_, hf1⟩, by norm_num⟩)

/-- C4: fetching a stored order when the downstream call throws or
times out, is not `ok`, or returns no usable `data` object yields 200
with the stored order exactly as it was (status and updatedAt
unchanged) and does not touch the store — never an error. -/
theorem C4_getOrder_downstream_failure (store : Store) (oid : String) (order : Order)
    (oms : OmsOutcome) (ho : storeGet store oid = some order)
    (hfail : oms = none ∨ (∃ r, oms = some r ∧ r.ok = false) ∨
             (∃ r, oms = some r ∧ r.data = none)) :
    getOrderHandler store oid oms =
      ({ status := 200, success := true, error := none, message := none,
         data := some order }, store) := by
  rcases hfail with h | ⟨r, h, hok⟩ | ⟨r, h, hdat⟩
  · subst h; simp [getOrderHandler, ho]
  · subst h; simp [getOrderHandler, ho, hok]
  · subst h; cases hok : r.ok <;> simp [getOrderHandler, ho, hok, hdat]

/-- Concrete instantiation of C4: with `demoOrder` stored and the fetch
throwing, the response is 200 with the unchanged order. -/
theorem C4_getOrder_downstream_failure_witness :
    storeGet [("ord-1", demoOrder)] "ord-1" = some demoOrder ∧
    getOrderHandler [("ord-1", demoOrder)] "ord-1" none =
      ({ status := 200, success := true, error := none, message := none,
         data := some demoOrder }, [("ord-1", demoOrder)]) := by
  have ho : storeGet [("ord-1", demoOrder)] "ord-1" = some demoOrder := by decide
  exact ⟨ho, C4_getOrder_downstream_failure [("ord-1", demoOrder)] "ord-1" demoOrder none ho
    (Or.inl rfl)⟩

/-- C6: whatever the downstream outcome, the order returned and
re-stored by the get-order handler differs from the stored one at most
in `status` and `updatedAt`: `id`, `items`, `customer`, `totalAmount`,
`currency` and `createdAt` are unchanged, so `totalAmount` keeps its
creation-time value. -/
theorem C6_getOrder_frame (store : Store) (oid : String) (order : Order)
    (oms : OmsOutcome) (o : Order)
    (ho : storeGet store oid = some order)
    (hd : (getOrderHandler store oid oms).1.data = some o) :
    o.id = order.id ∧ o.items = order.items ∧ o.customer = order.customer ∧
    o.totalAmount = order.totalAmount ∧ o.currency = order.currency ∧
    o.createdAt = order.createdAt ∧
    storeGet (getOrderHandler store oid oms).2 oid = some o := by
  rcases oms with _ | r
  · simp [getOrderHandler, ho] at hd
    subst hd
    simp [getOrderHandler, ho]
  · cases hok : r.ok
    · simp [getOrderHandler, ho, hok] at hd
      subst hd
      simp [getOrderHandler, ho, hok]
    · rcases hdat : r.data with _ | d
      · simp [getOrderHandler, ho, hok, hdat] at hd
        subst hd
        simp [getOrderHandler, ho, hok, hdat]
      · simp [getOrderHandler, ho, hok, hdat] at hd
        subst hd
        simp [getOrderHandler, ho, hok, hdat, storeGet_storeSet_self]

/-- Concrete instantiation of C6: a downstream response that sets
status `"shipped"` leaves every field of `demoOrder` but `status` and
`updatedAt` unchanged. -/
theorem C6_getOrder_frame_witness :
    (getOrderHandler [("ord-1", demoOrder)] "ord-1"
        (some { ok := true, data := some { status := some "shipped",
                                           updatedAt := some "t1" } })).1.data =
      some { demoOrder with status := "shipped", updatedAt := "t1" } ∧
    ({ demoOrder with status := "shipped", updatedAt := "t1" } : Order).id = demoOrder.id ∧
    ({ demoOrder with status := "shipped", updatedAt := "t1" } : Order).items =
      demoOrder.items ∧
    ({ demoOrder with status := "shipped", updatedAt := "t1" } : Order).customer =
      demoOrder.customer ∧
    ({ demoOrder with status := "shipped", updatedAt := "t1" } : Order).totalAmount =
      demoOrder.totalAmount ∧
    ({ demoOrder with status := "shipped", updatedAt := "t1" } : Order).currency =
      demoOrder.currency ∧
    ({ demoOrder with status := "shipped", updatedAt := "t1" } : Order).createdAt =
      demoOrder.createdAt := by
  have ho : storeGet [("ord-1", demoOrder)] "ord-1" = some demoOrder := by decide
  have hd : (getOrderHandler [("ord-1", demoOrder)] "ord-1"
      (some { ok := true, data := some { status := some "shipped",
                                         updatedAt := some "t1" } })).1.data =
      some { demoOrder with status := "shipped", updatedAt := "t1" } := by
    simp [getOrderHandler, ho, jsOr]
  have h := C6_getOrder_frame [("ord-1", demoOrder)] "ord-1" demoOrder
    (some { ok := true, data := some { status := some "shipped", updatedAt := some "t1" } })
    { demoOrder with status := "shipped", updatedAt := "t1" } ho hd
  exact ⟨hd, h.1, h.2.1, h.2.2.1, h.2.2.2.1, h.2.2.2.2.1, h.2.2.2.2.2.1⟩

/-- C8: an unknown product id always yields a 404 with success false
and the exact error body "Product not found"; an unknown order id
always yields a 404 with success false. -/
theorem C8_notfound_responses (products : List Product) (pid : String)
    (store : Store) (oid : String) (oms : OmsOutcome)
    (hp : findProduct products pid = none) (ho : storeGet store oid = none) :
    getProductHandler products pid =
      { status := 404, success := false, error := some "Product not found",
        data := none } ∧
    getOrderHandler store oid oms =
      ({ status := 404, success := false, error := some "Order not found",
         message := none, data := none }, store) := by
  constructor
  · simp [getProductHandler, hp]
  · simp [getOrderHandler, ho]

/-- Concrete instantiation of C8: `does-not-exist` is in neither the
demo catalog nor the store. -/
theorem C8_notfound_responses_witness :
    getProductHandler demoCatalog "does-not-exist" =
      { status := 404, success := false, error := some "Product not found",
        data := none } ∧
    getOrderHandler [] "does-not-exist" none =
      ({ status := 404, success := false, error := some "Order not found",
         message := none, data := none }, []) := by
  have hp : findProduct demoCatalog "does-not-exist" = none := by decide
  have ho : storeGet [] "does-not-exist" = none := by decide
  exact C8_notfound_responses demoCatalog "does-not-exist" [] "does-not-exist" none hp ho

/-- C10: when the downstream call succeeds with a `data` object, each
of `status` and `updatedAt` is overwritten only when the corresponding
downstream field is present and non-falsy; an absent or empty field
leaves the local value alone, independently per field. -/
theorem C10_getOrder_field_override (store : Store) (oid : String) (order : Order)
    (r : OmsResponse) (d : OmsData)
    (ho : storeGet store oid = some order) (hok : r.ok = true) (hd : r.data = some d) :
    ∃ o, (getOrderHandler store oid (some r)).1.data = some o ∧
      storeGet (getOrderHandler store oid (some r)).2 oid = some o ∧
      o.status = jsOr d.status order.status ∧
      o.updatedAt = jsOr d.updatedAt order.updatedAt ∧
      ((d.status = none ∨ d.status = some "") → o.status = order.status) ∧
      ((d.updatedAt = none ∨ d.updatedAt = some "") → o.updatedAt = order.updatedAt) ∧
      (∀ s, d.status = some s → s ≠ "" → o.status = s) ∧
      (∀ u, d.updatedAt = some u → u ≠ "" → o.updatedAt = u) := by
  refine ⟨({ order with
      status := jsOr d.status order.status
      updatedAt := jsOr d.updatedAt order.updatedAt } : Order),
    ?_, ?_, rfl, rfl, ?_, ?_, ?_, ?_⟩
  · simp [getOrderHandler, ho, hok, hd]
  · simp [getOrderHandler, ho, hok, hd, storeGet_storeSet_self]
  · rintro (h | h) <;> simp [jsOr, h]
  · rintro (h | h) <;> simp [jsOr, h]
  · intro s hs hne; simp [jsOr, hs, hne]
  · intro u hu hne; simp [jsOr, hu, hne]

/-- Concrete instantiation of C10: a downstream data object with status
`"shipped"` but an empty `updatedAt` overwrites only the status. -/
theorem C10_getOrder_field_override_witness :
    ∃ o, (getOrderHandler [("ord-1", demoOrder)] "ord-1"
        (some { ok := true, data := some { status := some "shipped",
                                           updatedAt := some "" } })).1.data = some o ∧
      storeGet (getOrderHandler [("ord-1", demoOrder)] "ord-1"
        (some { ok := true, data := some { status := some "shipped",
                                           updatedAt := some "" } })).2 "ord-1" = some o ∧
      o.status = jsOr (some "shipped") demoOrder.status ∧
      o.updatedAt = jsOr (some "") demoOrder.updatedAt ∧
      o.updatedAt = demoOrder.updatedAt ∧
      (∀ s, (some "shipped" : Option String) = some s → s ≠ "" → o.status = s) := by
  have ho : storeGet [("ord-1", demoOrder)] "ord-1" = some demoOrder := by decide
  have h := C10_getOrder_field_override [("ord-1", demoOrder)] "ord-1" demoOrder
    { ok := true, data := some { status := some "shipped", updatedAt := some "" } }
    { status := some "shipped", updatedAt := some "" } ho rfl rfl
  obtain ⟨o, h1, h2, h3, h4, h5, h6, h7, h8⟩ := h
  exact ⟨o, h1, h2, h3, h4, h6 (Or.inr rfl), h7⟩

/-- C5: after a successful create under a fresh id, the listing shows
the created order exactly once — the very order the create returned,
hence with identical items, totalAmount and customer — and its `total`
equals the number of stored orders.  The listing handler takes no
downstream input at all. -/
theorem C5_create_then_list (products : List Product) (body : CreateRequest)
    (newId nowStr : String) (store : Store) (o : Order)
    (hs : (createOrderHandler products body newId nowStr store).1.status = 201)
    (hd : (createOrderHandler products body newId nowStr store).1.data = some o)
    (hfresh : ∀ e ∈ store, e.1 ≠ newId ∧ e.2.id ≠ newId) :
    (listOrdersHandler (createOrderHandler products body newId nowStr store).2).data.filter
        (fun x => x.id == newId) = [o] ∧
    o ∈ (listOrdersHandler (createOrderHandler products body newId nowStr store).2).data ∧
    (listOrdersHandler (createOrderHandler products body newId nowStr store).2).total =
      (createOrderHandler products body newId nowStr store).2.length := by
  obtain ⟨items, customer, orderItems, totalAmount, hb, hne, hc, he, hn, hbuild, heq⟩ :=
    createOrder_ok_inv products body newId nowStr store hs
  rw [heq] at hd
  simp at hd
  rw [heq]
  subst hd
  have hset : storeSet store newId (builtOrder newId nowStr customer orderItems totalAmount) =
      store ++ [(newId, builtOrder newId nowStr customer orderItems totalAmount)] :=
    storeSet_fresh store newId _ (fun e he' => (hfresh e he').1)
  have hfil : (store.map Prod.snd).filter (fun x => x.id == newId) = [] := by
    rw [List.filter_eq_nil_iff]
    intro a ha
    obtain ⟨e, he', rfl⟩ := List.mem_map.mp ha
    simpa using (hfresh e he').2
  refine ⟨?_, ?_, ?_⟩
  · simp only [listOrdersHandler, storeValues, hset, List.map_append, List.filter_append,
      hfil, List.nil_append, List.map_cons, List.map_nil, List.filter]
    simp [builtOrder]
  · simp [listOrdersHandler, storeValues, hset]
  · simp [listOrdersHandler, storeValues]

/-- Concrete instantiation of C5: after creating the demo order in an
empty store, the listing shows it exactly once and reports one stored
order. -/
theorem C5_create_then_list_witness :
    (listOrdersHandler (createOrderHandler demoCatalog demoRequest "ord-1" "t0" []).2).data.filter
        (fun x => x.id == "ord-1") = [demoOrder] ∧
    demoOrder ∈
      (listOrdersHandler (createOrderHandler demoCatalog demoRequest "ord-1" "t0" []).2).data ∧
    (listOrdersHandler (createOrderHandler demoCatalog demoRequest "ord-1" "t0" []).2).total =
      (createOrderHandler demoCatalog demoRequest "ord-1" "t0" []).2.length := by
  have hf1 : findProduct demoCatalog "prod-001" = some ⟨"prod-001", "Widget", 10⟩ := by
    decide
  have hf3 : findProduct demoCatalog "prod-003" = some ⟨"prod-003", "Gadget", 5⟩ := by
    decide
  have hs : (createOrderHandler demoCatalog demoRequest "ord-1" "t0" []).1.status = 201 := by
    norm_num +decide [createOrderHandler, buildItems, hf1, hf3, demoRequest,
      demoCustomer, round2, round_eq, err400, storeSet, jsOrNull, builtOrder]
  have hd : (createOrderHandler demoCatalog demoRequest "ord-1" "t0" []).1.data
      = some demoOrder := by
    norm_num +decide [createOrderHandler, buildItems, hf1, hf3, demoRequest,
      demoCustomer, demoOrder, round2, round_eq, err400, storeSet, jsOrNull, builtOrder]
  exact C5_create_then_list demoCatalog demoRequest "ord-1" "t0" [] demoOrder hs hd
    (by simp)

/-! ### Key-preservation helpers for C7 -/

theorem createOrder_keys_mono (products : List Product) (body : CreateRequest)
    (newId nowStr : String) (store : Store) (k : String)
    (h : k ∈ storeKeys store) :
    k ∈ storeKeys (createOrderHandler products body newId nowStr store).2 := by
  rcases hb : body.items with _ | items
  · simpa [createOrderHandler, hb]
  by_cases hne : items.isEmpty
  · simpa [createOrderHandler, hb, hne]
  rcases hc : body.customer with _ | c
  · simpa [createOrderHandler, hb, hne, hc]
  by_cases hcu : (c.email == "" || c.name == "") = true
  · simpa [createOrderHandler, hb, hne, hc, hcu]
  rcases hbuild : buildItems products items with e | pr
  · simpa [createOrderHandler, hb, hne, hc, hcu, hbuild]
  · obtain ⟨ois, total⟩ := pr
    simp only [createOrderHandler, hb, hne, hc, hcu, hbuild]
    simp only [Bool.false_eq_true, if_false]
    exact storeKeys_storeSet_mono store newId k _ h

theorem getOrder_keys_mono (store : Store) (oid : String) (oms : OmsOutcome) (k : String)
    (h : k ∈ storeKeys store) : k ∈ storeKeys (getOrderHandler store oid oms).2 := by
  rcases ho : storeGet store oid with _ | order
  · simpa [getOrderHandler, ho]
  rcases oms with _ | r
  · simpa [getOrderHandler, ho]
  cases hok : r.ok
  · simpa [getOrderHandler, ho, hok]
  rcases hdat : r.data with _ | d
  · simpa [getOrderHandler, ho, hok, hdat]
  · simp only [getOrderHandler, ho, hok, hdat]
    exact storeKeys_storeSet_mono store oid k _ h

/-- C7: no request ever removes an order: an order id present in the
store stays present after any sequence of requests (create, get-order,
list-orders, list-products, get-product, health), so the set of stored
ids only grows over the process lifetime. -/
theorem C7_store_monotone (products : List Product) (store : Store)
    (ops : List Op) (oid : String)
    (h : oid ∈ storeKeys store) : oid ∈ storeKeys (run products store ops) := by
  induction ops generalizing store with
  | nil => simpa [run]
  | cons op rest ih =>
    rw [run]
    refine ih _ ?_
    cases op with
    | create body newId nowStr => exact createOrder_keys_mono products body newId nowStr store oid h
    | getOrder orderId oms => exact getOrder_keys_mono store orderId oms oid h
    | listOrders => simpa [step]
    | listProducts => simpa [step]
    | getProduct pid => simpa [step]
    | health nowStr => simpa [step]

/-- Concrete instantiation of C7: `ord-1` survives a create, a
get-order with a downstream mutation, a product read, a listing and a
health check. -/
theorem C7_store_monotone_witness :
    "ord-1" ∈ storeKeys (run demoCatalog [("ord-1", demoOrder)]
      [Op.create demoRequest "ord-2" "t1",
       Op.getOrder "ord-1"
         (some ⟨true, some ⟨some "shipped", some "t2"⟩⟩),
       Op.getProduct "prod-001", Op.listOrders, Op.health "t3"]) := by
  exact C7_store_monotone demoCatalog [("ord-1", demoOrder)] _ "ord-1" (by simp [storeKeys])

/-- C9: order creation neither merges nor deduplicates items: for a
valid request whose items repeat a productId, the built order has one
order item per submitted item in submission order (same productId and
quantity sequences), and the total is the rounded sum over that full
sequence of per-item subtotals. -/
theorem C9_no_dedup (products : List Product) (body : CreateRequest)
    (newId nowStr : String) (store : Store) (o : Order) (items : List ReqItem)
    (hb : body.items = some items)
    (hs : (createOrderHandler products body newId nowStr store).1.status = 201)
    (hd : (createOrderHandler products body newId nowStr store).1.data = some o)
    (hdup : ¬ (items.map ReqItem.productId).Nodup) :
    o.items.map OrderItem.productId = items.map ReqItem.productId ∧
    o.items.map OrderItem.quantity = items.map ReqItem.quantity ∧
    o.items.length = items.length ∧
    (∀ oi ∈ o.items, oi.subtotal = round2 (oi.unitPrice * oi.quantity)) ∧
    o.totalAmount = round2 ((o.items.map OrderItem.subtotal).sum) := by
  obtain ⟨items0, customer, orderItems, totalAmount, hb0, hne, hc, he, hn, hbuild, heq⟩ :=
    createOrder_ok_inv products body newId nowStr store hs
  have hitems : items0 = items := by
    rw [hb] at hb0
    exact (Option.some.inj hb0).symm
  subst hitems
  rw [heq] at hd
  simp at hd
  subst hd
  obtain ⟨hm1, hm2⟩ := buildItems_maps products items0 orderItems totalAmount hbuild
  have hlen : orderItems.length = items0.length := by
    have := congrArg List.length hm1
    simpa using this
  refine ⟨by simpa [builtOrder] using hm1, by simpa [builtOrder] using hm2,
    by simpa [builtOrder] using hlen, ?_, ?_⟩
  · intro oi hoi
    simp [builtOrder] at hoi
    obtain ⟨p, _, _, hp2, hp3, _, hp5⟩ :=
      buildItems_mem_spec products items0 orderItems totalAmount hbuild oi hoi
    rw [hp5, hp3]
  · have hsum := buildItems_sum products items0 orderItems totalAmount hbuild
    simp [builtOrder, ← hsum]

/-- Concrete instantiation of C9: ordering `prod-001` twice (quantities
2 and 1) keeps two separate order items in submission order and counts
both subtotals in the total of 30. -/
theorem C9_no_dedup_witness :
    (createOrderHandler demoCatalog
        { items := some [{ productId := "prod-001", quantity := 2, price := none },
                         { productId := "prod-001", quantity := 1, price := none }],
          customer := some demoCustomer } "ord-1" "t0" []).1.data = some
      { id := "ord-1"
        items := [{ productId := "prod-001", name := "Widget", price := 10,
                    quantity := 2, unitPrice := 10, subtotal := 20 },
                  { productId := "prod-001", name := "Widget", price := 10,
                    quantity := 1, unitPrice := 10, subtotal := 10 }]
        customer := { name := "John Doe", email := "john@example.com",
                      address := none, phone := none }
        totalAmount := 30
        currency := "USD"
        status := "pending"
        createdAt := "t0"
        updatedAt := "t0" } ∧
    ([{ productId := "prod-001", name := "Widget", price := 10,
        quantity := 2, unitPrice := 10, subtotal := 20 },
      { productId := "prod-001", name := "Widget", price := 10,
        quantity := 1, unitPrice := 10, subtotal := 10 }].map OrderItem.productId =
      ["prod-001", "prod-001"]) ∧
    (30 : ℚ) = round2 (20 + 10) := by
  have hf1 : findProduct demoCatalog "prod-001" = some ⟨"prod-001", "Widget", 10⟩ := by
    decide
  have hs : (createOrderHandler demoCatalog
      { items := some [{ productId := "prod-001", quantity := 2, price := none },
                       { productId := "prod-001", quantity := 1, price := none }],
        customer := some demoCustomer } "ord-1" "t0" []).1.status = 201 := by
    norm_num +decide [createOrderHandler, buildItems, hf1, demoCustomer,
      round2, round_eq, err400, storeSet, jsOrNull, builtOrder]
  have hd : (createOrderHandler demoCatalog
      { items := some [{ productId := "prod-001", quantity := 2, price := none },
                       { productId := "prod-001", quantity := 1, price := none }],
        customer := some demoCustomer } "ord-1" "t0" []).1.data = some
      { id := "ord-1"
        items := [{ productId := "prod-001", name := "Widget", price := 10,
                    quantity := 2, unitPrice := 10, subtotal := 20 },
                  { productId := "prod-001", name := "Widget", price := 10,
                    quantity := 1, unitPrice := 10, subtotal := 10 }]
        customer := { name := "John Doe", email := "john@example.com",
                      address := none, phone := none }
        totalAmount := 30
        currency := "USD"
        status := "pending"
        createdAt := "t0"
        updatedAt := "t0" } := by
    norm_num +decide [createOrderHandler, buildItems, hf1, demoCustomer,
      round2, round_eq, err400, storeSet, jsOrNull, builtOrder]
  have h := C9_no_dedup demoCatalog
    { items := some [{ productId := "prod-001", quantity := 2, price := none },
                     { productId := "prod-001", quantity := 1, price := none }],
      customer := some demoCustomer } "ord-1" "t0" [] _
    [{ productId := "prod-001", quantity := 2, price := none },
     { productId := "prod-001", quantity := 1, price := none }]
    rfl hs hd (by simp)
  refine ⟨hd, by simpa using h.1, ?_⟩
  have := h.2.2.2.2
  simpa using this

end Ecommerce
